import Mathlib

/-!
Shallow embedding of the GROMACS easyblock (class EB_GROMACS in
easybuild/easyblocks/g/gromacs.py), restricted to the parts the verified
claims are about: the variant build matrix produced by run_all_steps, and
the per-step skip / save / restore logic of configure_step, build_step,
test_step, install_step and extensions_step.

External collaborators (dependency probes such as get_software_root, the
which lookup, the parent class steps that run external processes, and the
filesystem globs) are passed in as explicit parameters.  Version
comparisons (LooseVersion) are passed in as booleans computed from the
package version.
-/

set_option autoImplicit false

namespace Gromacs

/-- Model of the easyconfig runtest parameter, which in the Python source
may be None, a bool, or a command string. -/
inductive RunTest
  | none
  | bool (b : Bool)
  | str (s : String)
  deriving DecidableEq, Repr

/-- Python truthiness of a runtest value: None is falsy, a bool is itself,
a string is truthy when non-empty. -/
def RunTest.truthy : RunTest → Bool
  | RunTest.none => false
  | RunTest.bool b => b
  | RunTest.str s => !s.isEmpty

/-- Python truthiness of an optional bool (the double_precision easyconfig
parameter, which defaults to None). -/
def optTruthy : Option Bool → Bool
  | Option.none => false
  | some b => b

/-- Python substring test (the expression pat in s on two strings). -/
def inStr (pat s : String) : Bool := decide (List.IsInfix pat.toList s.toList)

/-- Modelled from the spec: the host framework supplies cfg.update(key, v),
which for a string-valued key appends the new fragment to the old value
joined by a single space (spec section 4.1: fragments joined by a single
space).  The framework code itself is not part of this repository. -/
def updateStr (old frag : String) : String := old ++ " " ++ frag

/-- The scalar configuration slots of self.cfg read or written by the
embedded steps.  During iteration each step sees scalar option strings
(the per-variant entry substituted by the framework). -/
structure Cfg where
  configopts : String
  buildopts : String
  installopts : String
  runtest : RunTest
  double_precision : Option Bool
  parallel : Nat
  mpi_numprocs : Nat
  mpiexec : String
  mpiexec_numproc_flag : String
  deriving DecidableEq, Repr

/-- The precision axis of the variant matrix. -/
inductive Precision
  | single
  | double
  deriving DecidableEq, Repr

/-- The mpi-type axis of the variant matrix. -/
inductive MpiType
  | nompi
  | mpi
  deriving DecidableEq, Repr

/-- Name of a precision value as used in the Python dict keys. -/
def Precision.name : Precision → String
  | Precision.single => "single"
  | Precision.double => "double"

/-- Name of an mpi-type value as used in the Python dict keys. -/
def MpiType.name : MpiType → String
  | MpiType.nompi => "nompi"
  | MpiType.mpi => "mpi"

/-- Dict prec_opts of run_all_steps (gromacs.py lines 589-606), keyed on
whether the version is below 4.6. -/
def prec_opts (verLt46 : Bool) : Precision → String
  | Precision.single => if verLt46 then "--disable-double" else "-DGMX_DOUBLE=OFF"
  | Precision.double => if verLt46 then "--enable-double" else "-DGMX_DOUBLE=ON"

/-- Dict mpi_type_opts of run_all_steps (gromacs.py lines 594-606). -/
def mpi_type_opts (verLt46 : Bool) : MpiType → String
  | MpiType.nompi => if verLt46 then "--disable-mpi" else "-DGMX_MPI=OFF -DGMX_THREAD_MPI=ON"
  | MpiType.mpi => if verLt46 then "--enable-mpi" else "-DGMX_MPI=ON -DGMX_THREAD_MPI=OFF"

/-- Dict build_opts of run_all_steps (gromacs.py lines 619-631), keyed on
whether the version is below 5. -/
def build_opts (verLt5 : Bool) : MpiType → String
  | MpiType.nompi => ""
  | MpiType.mpi => if verLt5 then "mdrun" else ""

/-- Dict install_opts of run_all_steps (gromacs.py lines 623-635). -/
def install_opts (verLt5 : Bool) : MpiType → String
  | MpiType.nompi => "install"
  | MpiType.mpi => if verLt5 then "install-mdrun" else "install"

/-- The inputs of run_all_steps: the version gates, the easyconfig
parameters it reads, and the scalar option strings present in self.cfg
when it starts (the common baseline). -/
structure RAInput where
  verLt46 : Bool
  verLt5 : Bool
  double_precision : Option Bool
  usempi : Bool
  configopts : String
  buildopts : String
  installopts : String
  install_cmd : String
  build_cmd : String
  mpisuffix : String
  deriving DecidableEq, Repr

/-- The precision axis values enabled by run_all_steps (lines 637-639):
single always, double added when double_precision is None or truthy. -/
def precisions (dp : Option Bool) : List Precision :=
  [Precision.single] ++ (if dp.isNone || optTruthy dp then [Precision.double] else [])

/-- The mpi-type axis values enabled by run_all_steps (lines 641-643):
nompi always, mpi added when the usempi toolchain option is set. -/
def mpitypes (usempi : Bool) : List MpiType :=
  [MpiType.nompi] ++ (if usempi then [MpiType.mpi] else [])

/-- The nested loop order of run_all_steps (lines 649-650): precision is
the outer loop, mpi-type the inner loop. -/
def variantPairs (i : RAInput) : List (Precision × MpiType) :=
  (precisions i.double_precision).flatMap
    (fun p => (mpitypes i.usempi).map (fun m => (p, m)))

/-- The program-suffix fragment computed for versions below 4.6
(gromacs.py lines 658-664). -/
def conf_suffix (i : RAInput) (p : Precision) (m : MpiType) : String :=
  if m = MpiType.mpi then
    "--program-suffix=" ++ i.mpisuffix ++ (if p = Precision.double then "_d" else "")
  else ""

/-- The var_confopts list built for one variant (lines 652-664). -/
def var_confopts (i : RAInput) (p : Precision) (m : MpiType) : List String :=
  [mpi_type_opts i.verLt46 m, prec_opts i.verLt46 p] ++
    (if i.verLt46 then [conf_suffix i p m] else [])

/-- The configopts entry appended for one variant (line 669). -/
def configEntry (i : RAInput) (p : Precision) (m : MpiType) : String :=
  String.intercalate " " (var_confopts i p m) ++ " " ++ i.configopts

/-- The buildopts entry appended for one variant (lines 666 and 670). -/
def buildEntry (i : RAInput) (m : MpiType) : String :=
  String.intercalate " " [build_opts i.verLt5 m] ++ " " ++ i.buildopts

/-- The installopts entry appended for one variant (lines 667 and 671). -/
def installEntry (i : RAInput) (m : MpiType) : String :=
  String.intercalate " " [install_opts i.verLt5 m] ++ " " ++ i.installopts

/-- The human-readable label appended to versions_built (line 651). -/
def versionLabel (p : Precision) (m : MpiType) : String :=
  p.name ++ " precision " ++ m.name

/-- The state left behind by run_all_steps when it returns: the expanded
option lists, the counters, and the saved attributes. -/
structure RAState where
  configopts : List String
  buildopts : List String
  installopts : List String
  variants_to_build : Nat
  versions_built : List String
  save_installopts : String
  save_install_cmd : String
  save_build_cmd : String
  double_prec_pattern : String
  install_cmd : String
  build_cmd : String
  deriving DecidableEq, Repr

/-- run_all_steps (gromacs.py lines 568-676): saves the common option
triple and the install and build commands, resets the three option
parameters to lists, enumerates the enabled variants with precision as
the outer loop and mpi-type as the inner loop, and appends one merged
entry per variant to each list.  For versions below 5 the install
command is set to make.  The function returns on line 676 by delegating
to the parent run_all_steps; the restore assignments and the final log
statement on lines 678-681 come after that return and never execute, so
they have no counterpart here. -/
def run_all_steps (i : RAInput) : RAState :=
  let pairs := variantPairs i
  { configopts := pairs.map (fun pm => configEntry i pm.1 pm.2)
    buildopts := pairs.map (fun pm => buildEntry i pm.2)
    installopts := pairs.map (fun pm => installEntry i pm.2)
    variants_to_build := (pairs.map (fun pm => configEntry i pm.1 pm.2)).length
    versions_built := pairs.map (fun pm => versionLabel pm.1 pm.2)
    save_installopts := i.installopts
    save_install_cmd := i.install_cmd
    save_build_cmd := i.build_cmd
    double_prec_pattern := prec_opts i.verLt46 Precision.double
    install_cmd := if i.verLt5 then "make" else i.install_cmd
    build_cmd := i.build_cmd }

/-- is_double_precision_cuda_build (gromacs.py lines 132-135): true when
the CUDA dependency root is present and the double precision pattern
occurs in the active configopts. -/
def is_double_precision_cuda_build (cuda : Option String) (double_prec_pattern : String)
    (c : Cfg) : Bool :=
  cuda.isSome && inStr double_prec_pattern c.configopts

/-- Result of the CUDA guard block of configure_step: the configuration
afterwards, the fatal error if one was raised, and whether the step
returned early (skipping this configure). -/
structure ConfigureCudaResult where
  cfg : Cfg
  err : Option String
  skipped : Bool
  deriving DecidableEq, Repr

/-- The CUDA / double precision guard at the top of configure_step
(gromacs.py lines 156-184).  verGe46 is the version gate, cuda the
result of the dependency probe get_software_root on CUDA, and
double_prec_pattern the attribute set by run_all_steps.  An explicit
double_precision = True together with CUDA raises at once, before any
configure option is applied; a default-selected double precision build
is skipped, recording double_precision = False the first time. -/
def configure_step_cuda (verGe46 : Bool) (cuda : Option String)
    (double_prec_pattern : String) (c : Cfg) : ConfigureCudaResult :=
  if verGe46 then
    match cuda with
    | some root =>
        if optTruthy c.double_precision then
          { cfg := c,
            err := some ("Double precision is not available for GPU build. " ++
              "Please explicitly set \"double_precision = False\" " ++
              "or remove it in the easyconfig file."),
            skipped := false }
        else if inStr double_prec_pattern c.configopts then
          let c1 := if c.double_precision = Option.none then
              { c with double_precision := some false }
            else c
          { cfg := c1, err := Option.none, skipped := true }
        else
          let c1 := { c with
            configopts := updateStr c.configopts ("-DGMX_GPU=ON -DCUDA_TOOLKIT_ROOT_DIR=" ++ root) }
          { cfg := c1, err := Option.none, skipped := false }
    | Option.none =>
        { cfg := { c with configopts := updateStr c.configopts "-DGMX_GPU=OFF" },
          err := Option.none, skipped := false }
  else { cfg := c, err := Option.none, skipped := false }

/-- Result of the MPI block of configure_step. -/
structure ConfigureMpiResult where
  cfg : Cfg
  err : Option String
  deriving DecidableEq, Repr

/-- The MPI test-executable handling of configure_step (gromacs.py lines
241-261), reached for versions at least 4.6.  mpiexec_path is the result
of the external search-path lookup which(self.cfg.get(..)).  When the MPI
variant is being configured and the executable is missing, an error is
raised only when runtest is truthy; otherwise the block is a no-op. -/
def configure_step_mpi (mpiexec_path : Option String) (c : Cfg) : ConfigureMpiResult :=
  if inStr "-DGMX_MPI=ON" c.configopts then
    let numprocs := if c.mpi_numprocs = 0 then c.parallel else c.mpi_numprocs
    match mpiexec_path with
    | some p =>
        let c1 := { c with configopts := updateStr c.configopts ("-DMPIEXEC=" ++ p) }
        let c2 := { c1 with
          configopts := updateStr c1.configopts ("-DMPIEXEC_NUMPROC_FLAG=" ++ c.mpiexec_numproc_flag) }
        let c3 := { c2 with
          configopts := updateStr c2.configopts ("-DNUMPROC=" ++ toString numprocs) }
        { cfg := c3, err := Option.none }
    | Option.none =>
        if c.runtest.truthy then
          { cfg := c, err := some (c.mpiexec ++ " not found in PATH") }
        else { cfg := c, err := Option.none }
  else { cfg := c, err := Option.none }

/-- Result of one pipeline step: the configuration afterwards, whether
the parent class step was invoked, and the error if one was raised. -/
structure StepResult where
  cfg : Cfg
  parentInvoked : Bool
  err : Option String
  deriving DecidableEq, Repr

/-- build_step (gromacs.py lines 382-392): skips (log only, no parent
call, no error) for a double precision CUDA build, otherwise delegates to
the parent build step, an external process modelled by parent_ok. -/
def build_step (cuda : Option String) (double_prec_pattern : String) (parent_ok : Bool)
    (c : Cfg) : StepResult :=
  if is_double_precision_cuda_build cuda double_prec_pattern c then
    { cfg := c, parentInvoked := false, err := Option.none }
  else if parent_ok then
    { cfg := c, parentInvoked := true, err := Option.none }
  else
    { cfg := c, parentInvoked := true, err := some "build failed" }

/-- test_step (gromacs.py lines 394-416): skips for a double precision
CUDA build; when runtest is None or truthy it saves the old runtest,
substitutes the string check when runtest is None or a bool, appends the
parallel flag via cfg.update, runs the parent test step (external,
modelled by parent_ok), and restores the saved runtest afterwards.  The
environment variable OMP_NUM_THREADS it also sets lives in the process
environment, outside self.cfg, and is not modelled. -/
def test_step (cuda : Option String) (double_prec_pattern : String) (parent_ok : Bool)
    (c : Cfg) : StepResult :=
  if is_double_precision_cuda_build cuda double_prec_pattern c then
    { cfg := c, parentInvoked := false, err := Option.none }
  else if (c.runtest = RunTest.none) || c.runtest.truthy then
    let old_runtest := c.runtest
    let c1 := { c with runtest :=
      match c.runtest with
      | RunTest.none => RunTest.str "check"
      | RunTest.bool _ => RunTest.str "check"
      | RunTest.str s => RunTest.str s }
    let c2 := { c1 with runtest :=
      match c1.runtest with
      | RunTest.str s => RunTest.str (updateStr s ("-j " ++ toString c.parallel))
      | r => r }
    if parent_ok then
      { cfg := { c2 with runtest := old_runtest }, parentInvoked := true, err := Option.none }
    else
      { cfg := c2, parentInvoked := true, err := some "test failed" }
  else { cfg := c, parentInvoked := false, err := Option.none }

/-- install_step (gromacs.py lines 418-458): skips for a double precision
CUDA build; otherwise appends the parallel flag to installopts, runs the
parent install step (external, modelled by parent_ok), determines the
library subdirectory by a filesystem glob (external, modelled by
lib_subdir_found, raising when nothing is found), and finally resets
installopts to the value saved by run_all_steps. -/
def install_step (cuda : Option String) (double_prec_pattern : String)
    (save_installopts : String) (parent_ok : Bool) (lib_subdir_found : Option String)
    (c : Cfg) : StepResult :=
  if is_double_precision_cuda_build cuda double_prec_pattern c then
    { cfg := c, parentInvoked := false, err := Option.none }
  else
    let c1 := { c with installopts := updateStr c.installopts ("-j " ++ toString c.parallel) }
    if parent_ok then
      match lib_subdir_found with
      | some _ =>
          { cfg := { c1 with installopts := save_installopts },
            parentInvoked := true, err := Option.none }
      | Option.none =>
          { cfg := c1, parentInvoked := true,
            err := some "Failed to determine lib subdirectory" }
    else { cfg := c1, parentInvoked := true, err := some "install failed" }

/-- extensions_step (gromacs.py lines 460-469): on every iteration whose
index is below variants_to_build - 1 it logs a skip and returns; on the
last iteration it clears runtest and invokes the parent extensions step.
The returned flag records whether the parent step was invoked. -/
def extensions_step (iter_idx variants_to_build : Nat) (c : Cfg) : Bool × Cfg :=
  if iter_idx < variants_to_build - 1 then (false, c)
  else (true, { c with runtest := RunTest.none })

/-- Modelled from the spec: the host pipeline driver (runAll, spec section
4.1) is framework code outside this repository; it invokes the per-variant
steps for each entry of the expanded option lists in sequence, substituting
the entry as the active configopts, aborting on a step error but continuing
past a skipped variant. -/
def run_variant_builds (cuda : Option String) (double_prec_pattern : String)
    (parent_ok : Bool) (base : Cfg) : List String → List StepResult
  | [] => []
  | ops :: rest =>
      let r := build_step cuda double_prec_pattern parent_ok { base with configopts := ops }
      match r.err with
      | some _ => [r]
      | Option.none =>
          r :: run_variant_builds cuda double_prec_pattern parent_ok base rest

/-! Concrete configurations used as evaluation points by the witnesses and
counterexamples below. -/

/-- A baseline scalar configuration. -/
def cBase : Cfg :=
  { configopts := "", buildopts := "", installopts := "", runtest := RunTest.none,
    double_precision := Option.none, parallel := 4, mpi_numprocs := 0,
    mpiexec := "mpirun", mpiexec_numproc_flag := "-np" }

/-- Inputs of run_all_steps for a modern version with both axes fully
enabled and common baseline "--X" in all three option strings. -/
def iFull : RAInput :=
  { verLt46 := false, verLt5 := false, double_precision := Option.none, usempi := true,
    configopts := "--X", buildopts := "--X", installopts := "--X",
    install_cmd := "make install", build_cmd := "make", mpisuffix := "_mpi" }

/-- Inputs of run_all_steps for a version below 5 (so the install command
is overwritten with make). -/
def iOld : RAInput :=
  { verLt46 := true, verLt5 := true, double_precision := Option.none, usempi := true,
    configopts := "-DCommon", buildopts := "", installopts := "",
    install_cmd := "make install", build_cmd := "make", mpisuffix := "_mpi" }

/-- Inputs of run_all_steps for a CUDA host: the version is at least 4.6,
double_precision is left at its default None, usempi is unset. -/
def iCudaDefault : RAInput :=
  { verLt46 := false, verLt5 := false, double_precision := Option.none, usempi := false,
    configopts := "", buildopts := "", installopts := "",
    install_cmd := "make install", build_cmd := "make", mpisuffix := "_mpi" }

/-- An active configuration whose configopts is the double precision
variant entry of a modern version. -/
def cCudaSkip : Cfg :=
  { cBase with configopts := "-DGMX_MPI=OFF -DGMX_THREAD_MPI=ON -DGMX_DOUBLE=ON " }

/-- A configuration with double_precision explicitly set to True. -/
def cDoubleTrue : Cfg := { cBase with double_precision := some true }

/-- An MPI variant configuration with testing requested. -/
def cMpiTest : Cfg :=
  { cBase with
    configopts := "-DGMX_MPI=ON -DGMX_THREAD_MPI=OFF -DGMX_DOUBLE=OFF --X",
    runtest := RunTest.bool true }

/-- A configuration with a stale installopts value, for the install step. -/
def cInstall : Cfg := { cBase with installopts := "install --X" }

/-- C1: run_all_steps produces exactly (number of enabled precisions)
times (number of enabled mpi-types) entries in each of the configopts,
buildopts and installopts lists, sets variants_to_build to that product,
and (shown for a full matrix of a version at least 4.6) orders the
entries lexicographically with precision as the outer loop and mpi-type
as the inner loop: single/nompi, single/mpi, double/nompi, double/mpi. -/
theorem run_all_steps_variant_matrix (i : RAInput) :
    (run_all_steps i).configopts.length
        = (precisions i.double_precision).length * (mpitypes i.usempi).length
  ∧ (run_all_steps i).buildopts.length
        = (precisions i.double_precision).length * (mpitypes i.usempi).length
  ∧ (run_all_steps i).installopts.length
        = (precisions i.double_precision).length * (mpitypes i.usempi).length
  ∧ (run_all_steps i).variants_to_build
        = (precisions i.double_precision).length * (mpitypes i.usempi).length
  ∧ (i.double_precision = Option.none → i.usempi = true → i.verLt46 = false →
      (run_all_steps i).configopts =
        ["-DGMX_MPI=OFF -DGMX_THREAD_MPI=ON -DGMX_DOUBLE=OFF " ++ i.configopts,
         "-DGMX_MPI=ON -DGMX_THREAD_MPI=OFF -DGMX_DOUBLE=OFF " ++ i.configopts,
         "-DGMX_MPI=OFF -DGMX_THREAD_MPI=ON -DGMX_DOUBLE=ON " ++ i.configopts,
         "-DGMX_MPI=ON -DGMX_THREAD_MPI=OFF -DGMX_DOUBLE=ON " ++ i.configopts]) := by
  obtain ⟨v46, v5, dp, um, co, bo, io, ic, bc, ms⟩ := i
  refine ⟨?_, ?_, ?_, ?_, ?_⟩
  · rcases dp with _ | (_ | _) <;> cases um <;> rfl
  · rcases dp with _ | (_ | _) <;> cases um <;> rfl
  · rcases dp with _ | (_ | _) <;> cases um <;> rfl
  · rcases dp with _ | (_ | _) <;> cases um <;> rfl
  · intro h1 h2 h3
    subst h1; subst h2; subst h3
    rfl

/-- Witness for C1: the full matrix over common baseline "--X" yields four
entries in the documented order, each carrying the "--X" suffix. -/
theorem run_all_steps_variant_matrix_witness :
    (run_all_steps iFull).variants_to_build = 4
  ∧ (run_all_steps iFull).configopts =
      ["-DGMX_MPI=OFF -DGMX_THREAD_MPI=ON -DGMX_DOUBLE=OFF --X",
       "-DGMX_MPI=ON -DGMX_THREAD_MPI=OFF -DGMX_DOUBLE=OFF --X",
       "-DGMX_MPI=OFF -DGMX_THREAD_MPI=ON -DGMX_DOUBLE=ON --X",
       "-DGMX_MPI=ON -DGMX_THREAD_MPI=OFF -DGMX_DOUBLE=ON --X"] :=
  ⟨(run_all_steps_variant_matrix iFull).2.2.2.1,
   (run_all_steps_variant_matrix iFull).2.2.2.2 rfl rfl rfl⟩

/-- The merge order as claim C2 states it: the first axis (precision, the
outer loop) fragment first, then the mpi-type fragment, then the common
baseline, joined by single spaces.  Written from the words of the claim,
for comparison with configEntry, which is written from the source. -/
def claimConfigEntry (i : RAInput) (p : Precision) (m : MpiType) : String :=
  prec_opts i.verLt46 p ++ " " ++ mpi_type_opts i.verLt46 m ++ " " ++ i.configopts

/-- Counterexample to C2: the source appends the mpi-type fragment before
the precision fragment (gromacs.py lines 656-657), so the single/mpi
variant entry actually produced differs from the one the claim predicts. -/
theorem configEntry_axis_order_counterexample :
    (run_all_steps iFull).configopts.get? 1
        = some "-DGMX_MPI=ON -DGMX_THREAD_MPI=OFF -DGMX_DOUBLE=OFF --X"
  ∧ claimConfigEntry iFull Precision.single MpiType.mpi
        = "-DGMX_DOUBLE=OFF -DGMX_MPI=ON -DGMX_THREAD_MPI=OFF --X"
  ∧ ("-DGMX_MPI=ON -DGMX_THREAD_MPI=OFF -DGMX_DOUBLE=OFF --X" : String)
        ≠ "-DGMX_DOUBLE=OFF -DGMX_MPI=ON -DGMX_THREAD_MPI=OFF --X" := by
  refine ⟨rfl, rfl, ?_⟩
  decide

/-- C2 amended: each variant entry of each of the three option lists is
the space-joined concatenation of its per-axis fragments in the order the
source appends them (mpi-type fragment first, then precision fragment,
then for versions below 4.6 the program-suffix fragment), followed by the
common baseline captured before expansion; empty fragments contribute a
harmless empty segment and nothing fails on empty strings. -/
theorem run_all_steps_merged_options (i : RAInput) :
    ((run_all_steps i).configopts = (variantPairs i).map (fun pm =>
        if i.verLt46 then
          mpi_type_opts i.verLt46 pm.2 ++ " " ++ prec_opts i.verLt46 pm.1 ++ " "
            ++ conf_suffix i pm.1 pm.2 ++ " " ++ i.configopts
        else
          mpi_type_opts i.verLt46 pm.2 ++ " " ++ prec_opts i.verLt46 pm.1 ++ " "
            ++ i.configopts))
  ∧ ((run_all_steps i).buildopts = (variantPairs i).map (fun pm =>
        build_opts i.verLt5 pm.2 ++ " " ++ i.buildopts))
  ∧ ((run_all_steps i).installopts = (variantPairs i).map (fun pm =>
        install_opts i.verLt5 pm.2 ++ " " ++ i.installopts)) := by
  obtain ⟨v46, v5, dp, um, co, bo, io, ic, bc, ms⟩ := i
  cases v46 <;> exact ⟨rfl, rfl, rfl⟩

/-- C3: run_all_steps returns on gromacs.py line 676; the restore of the
saved install and build commands on lines 678-679 (and the final log on
line 681) are scheduled after that return and never execute.  For any
version below 5 the install command therefore remains the overwritten
value make after the call instead of the saved original. -/
theorem run_all_steps_restore_unreachable :
    (run_all_steps iOld).save_install_cmd = "make install"
  ∧ (run_all_steps iOld).install_cmd = "make"
  ∧ (run_all_steps iOld).install_cmd ≠ (run_all_steps iOld).save_install_cmd := by
  refine ⟨rfl, rfl, ?_⟩
  decide

/-- C4: within one matrix run (iteration indices 0 to N-1), the real work
of extensions_step runs exactly once, and only on the iteration whose
zero-based index equals variants_to_build - 1; every earlier iteration
returns without invoking the parent extensions step and leaves the
configuration untouched. -/
theorem extensions_step_last_iteration_only (N j : Nat) (c : Cfg)
    (hN : 0 < N) (hj : j < N) :
    ((List.range N).countP (fun k => (extensions_step k N c).1)) = 1
  ∧ ((extensions_step j N c).1 = true ↔ j = N - 1)
  ∧ ((extensions_step j N c).1 = false → extensions_step j N c = (false, c)) := by
  obtain ⟨n, rfl⟩ : ∃ n, N = n + 1 := ⟨N - 1, by omega⟩
  refine ⟨?_, ?_, ?_⟩
  · rw [List.range_succ, List.countP_append, List.countP_cons, List.countP_nil]
    have h0 : (List.range n).countP (fun k => (extensions_step k (n + 1) c).1) = 0 := by
      rw [List.countP_eq_zero]
      intro a ha
      have han : a < n := List.mem_range.mp ha
      simp only [extensions_step]
      rw [if_pos (by omega)]
      simp
    have h1 : (extensions_step n (n + 1) c).1 = true := by
      simp only [extensions_step]
      rw [if_neg (by omega)]
    rw [h0, h1]
    simp
  · simp only [extensions_step]
    split
    · rename_i h
      simp only [Bool.false_eq_true, false_iff]
      omega
    · rename_i h
      simp only [true_iff]
      omega
  · simp only [extensions_step]
    split
    · intro _
      rfl
    · intro h
      simp at h

/-- Witness for C4 at a four-variant matrix and iteration index 1. -/
theorem extensions_step_last_iteration_only_witness :
    ((List.range 4).countP (fun k => (extensions_step k 4 cBase).1)) = 1
  ∧ ((extensions_step 1 4 cBase).1 = true ↔ 1 = 4 - 1)
  ∧ ((extensions_step 1 4 cBase).1 = false → extensions_step 1 4 cBase = (false, cBase)) :=
  extensions_step_last_iteration_only 4 1 cBase (by decide) (by decide)

/-- Counterexample to C5: with the accelerator scenario of the claim
(double precision selected by default, version at least 4.6),
run_all_steps still emits a double precision entry into the planned
configopts list.  run_all_steps (gromacs.py lines 637-639) never consults
the CUDA dependency probe, so the planned lists are the same whether or
not CUDA is present, and the double value is not excluded from the
precision axis at planning time. -/
theorem run_all_steps_plans_double_counterexample :
    (run_all_steps iCudaDefault).configopts
      = ["-DGMX_MPI=OFF -DGMX_THREAD_MPI=ON -DGMX_DOUBLE=OFF ",
         "-DGMX_MPI=OFF -DGMX_THREAD_MPI=ON -DGMX_DOUBLE=ON "]
  ∧ inStr "-DGMX_DOUBLE=ON" ((run_all_steps iCudaDefault).configopts.getD 1 "") = true := by
  refine ⟨rfl, ?_⟩
  decide

/-- C5 amended: the double variant stays in the planned lists; the
exclusion happens per variant in configure_step instead: when CUDA is
present, the active configopts is a double precision entry and no
explicit double_precision override was given, configure_step records
double_precision = False and returns early without raising an error and
without touching configopts. -/
theorem configure_step_cuda_skips_default_double (root pat : String) (c : Cfg)
    (hdp : c.double_precision = Option.none)
    (hpat : inStr pat c.configopts = true) :
    configure_step_cuda true (some root) pat c
      = { cfg := { c with double_precision := some false },
          err := Option.none, skipped := true } := by
  simp [configure_step_cuda, optTruthy, hdp, hpat]

/-- Witness for the amended C5 at a concrete CUDA root and the double
precision variant entry of a modern version. -/
theorem configure_step_cuda_skips_default_double_witness :
    configure_step_cuda true (some "/opt/cuda") "-DGMX_DOUBLE=ON" cCudaSkip
      = { cfg := { cCudaSkip with double_precision := some false },
          err := Option.none, skipped := true } :=
  configure_step_cuda_skips_default_double "/opt/cuda" "-DGMX_DOUBLE=ON" cCudaSkip rfl
    (by decide)

/-- With the parent build succeeding, a variant build never produces an
error, whether it is skipped or built. -/
theorem build_step_ok_no_err (cuda : Option String) (dpp : String) (c : Cfg) :
    (build_step cuda dpp true c).err = Option.none := by
  simp only [build_step]
  split
  · rfl
  · rfl

/-- The pipeline driver processes every variant of the expanded list when
the parent build succeeds: skipped variants do not shorten the run. -/
theorem run_variant_builds_all_run (cuda : Option String) (dpp : String) (base : Cfg)
    (variants : List String) :
    (run_variant_builds cuda dpp true base variants).length = variants.length := by
  induction variants with
  | nil => rfl
  | cons ops rest ih =>
      simp only [run_variant_builds]
      rw [build_step_ok_no_err]
      simp [ih]

/-- C6: for a double precision CUDA variant, build_step and install_step
return without invoking the parent steps and without raising an error,
leaving the configuration untouched, and the driver still processes every
variant of the expanded list. -/
theorem build_install_skip_double_cuda (cuda : Option String) (dpp save : String)
    (pok : Bool) (lf : Option String) (base c : Cfg) (variants : List String)
    (h : is_double_precision_cuda_build cuda dpp c = true) :
    build_step cuda dpp pok c = { cfg := c, parentInvoked := false, err := Option.none }
  ∧ install_step cuda dpp save pok lf c
      = { cfg := c, parentInvoked := false, err := Option.none }
  ∧ (run_variant_builds cuda dpp true base variants).length = variants.length := by
  refine ⟨?_, ?_, run_variant_builds_all_run cuda dpp base variants⟩
  · simp [build_step, h]
  · simp [install_step, h]

/-- Witness for C6: a double precision CUDA variant is skipped by both
steps without error, and a two-variant list is processed in full. -/
theorem build_install_skip_double_cuda_witness :
    build_step (some "/opt/cuda") "-DGMX_DOUBLE=ON" true cCudaSkip
      = { cfg := cCudaSkip, parentInvoked := false, err := Option.none }
  ∧ install_step (some "/opt/cuda") "-DGMX_DOUBLE=ON" "--X" true Option.none cCudaSkip
      = { cfg := cCudaSkip, parentInvoked := false, err := Option.none }
  ∧ (run_variant_builds (some "/opt/cuda") "-DGMX_DOUBLE=ON" true cBase
      ["-DGMX_DOUBLE=ON --X", "-DGMX_DOUBLE=OFF --X"]).length = 2 :=
  build_install_skip_double_cuda (some "/opt/cuda") "-DGMX_DOUBLE=ON" "--X" true
    Option.none cBase cCudaSkip ["-DGMX_DOUBLE=ON --X", "-DGMX_DOUBLE=OFF --X"] (by decide)

/-- C7: when double precision is explicitly requested together with CUDA
(version at least 4.6), configure_step raises the fatal configuration
conflict as its first action: the error is reported, the step does not
reach its skip path, and the configuration is returned untouched, so no
configure option for that build was applied. -/
theorem configure_step_cuda_double_error (root pat : String) (c : Cfg)
    (h : c.double_precision = some true) :
    (configure_step_cuda true (some root) pat c).err
        = some ("Double precision is not available for GPU build. " ++
            "Please explicitly set \"double_precision = False\" " ++
            "or remove it in the easyconfig file.")
  ∧ (configure_step_cuda true (some root) pat c).cfg = c
  ∧ (configure_step_cuda true (some root) pat c).skipped = false := by
  simp [configure_step_cuda, optTruthy, h]

/-- Witness for C7 at a concrete CUDA root and configuration. -/
theorem configure_step_cuda_double_error_witness :
    (configure_step_cuda true (some "/opt/cuda") "-DGMX_DOUBLE=ON" cDoubleTrue).err
        = some ("Double precision is not available for GPU build. " ++
            "Please explicitly set \"double_precision = False\" " ++
            "or remove it in the easyconfig file.")
  ∧ (configure_step_cuda true (some "/opt/cuda") "-DGMX_DOUBLE=ON" cDoubleTrue).cfg
        = cDoubleTrue
  ∧ (configure_step_cuda true (some "/opt/cuda") "-DGMX_DOUBLE=ON" cDoubleTrue).skipped
        = false :=
  configure_step_cuda_double_error "/opt/cuda" "-DGMX_DOUBLE=ON" cDoubleTrue rfl

/-- C8: during configuration of an MPI variant, a missing mpiexec
executable raises an error exactly when testing is requested (runtest is
truthy); otherwise it is ignored and the configuration is left as it was,
in particular without the MPIEXEC configure options. -/
theorem configure_step_mpi_missing_mpiexec (c : Cfg)
    (hmpi : inStr "-DGMX_MPI=ON" c.configopts = true) :
    ((configure_step_mpi Option.none c).err).isSome = c.runtest.truthy
  ∧ (configure_step_mpi Option.none c).cfg = c := by
  simp only [configure_step_mpi, hmpi]
  cases h : c.runtest.truthy <;> simp [h]

/-- Witness for C8: an MPI variant with testing requested and mpiexec
missing yields an error. -/
theorem configure_step_mpi_missing_mpiexec_witness :
    ((configure_step_mpi Option.none cMpiTest).err).isSome = true
  ∧ (configure_step_mpi Option.none cMpiTest).cfg = cMpiTest :=
  configure_step_mpi_missing_mpiexec cMpiTest (by decide)

/-- C9: whenever install_step is not skipped and completes without error,
the installopts it leaves behind equal the scalar value saved by
run_all_steps: both the per-variant entry and the appended parallel flag
are discarded, and this happens inside install_step, hence once per
installed variant.  run_all_steps indeed saves the original scalar
installopts into save_installopts at its start. -/
theorem install_step_resets_installopts (cuda : Option String) (dpp save : String)
    (pok : Bool) (lf : Option String) (c : Cfg) (i : RAInput)
    (hskip : is_double_precision_cuda_build cuda dpp c = false)
    (hok : (install_step cuda dpp save pok lf c).err = Option.none) :
    (install_step cuda dpp save pok lf c).cfg.installopts = save
  ∧ (run_all_steps i).save_installopts = i.installopts := by
  refine ⟨?_, rfl⟩
  cases pok
  · simp [install_step, hskip] at hok
  · cases lf with
    | none => simp [install_step, hskip] at hok
    | some sub => simp [install_step, hskip]

/-- Witness for C9: a non-CUDA install resets installopts to the saved
scalar, and run_all_steps saved the original scalar. -/
theorem install_step_resets_installopts_witness :
    (install_step Option.none "-DGMX_DOUBLE=ON" "--X" true (some "lib64") cInstall).cfg.installopts
        = "--X"
  ∧ (run_all_steps iFull).save_installopts = "--X" :=
  install_step_resets_installopts Option.none "-DGMX_DOUBLE=ON" "--X" true (some "lib64")
    cInstall iFull (by decide) (by decide)

/-- C10: for every starting configuration, when the parent test succeeds
(the step returns normally) test_step leaves runtest exactly as it was
before the call: the saved value is restored after the check substitution
and the parallel flag append, and the skip and runtest-disabled branches
never touch it. -/
theorem test_step_restores_runtest (cuda : Option String) (dpp : String) (c : Cfg) :
    (test_step cuda dpp true c).cfg.runtest = c.runtest
  ∧ (test_step cuda dpp true c).err = Option.none := by
  simp only [test_step]
  split
  · exact ⟨rfl, rfl⟩
  · split
    · exact ⟨rfl, rfl⟩
    · exact ⟨rfl, rfl⟩

end Gromacs
